import Mathlib

/-!
Verification of the rule-authoring configuration layer of the openremote
`or-rules` component (src/ui/component/or-rules/src/index.ts).

Two subsystems are embedded:

* the config resolver (`getAssetInfos` and its helpers), which merges a layered
  `RulesConfig` with the canonical asset-type catalog; and
* the selection/edit guard (`_onRuleSelectionRequested` and the request-event
  constructors).

JavaScript object identity matters for the resolver (the source shallow-copies
the attribute-descriptor *array* but the *elements* stay shared with the
canonical catalog) and for the guard (spread copies of rulesets). Shared
mutable attribute-descriptor objects are therefore modelled by an explicit
store (`AssetModel.attrStore`), with `AssetTypeInfo.attributeDescriptors`
holding indices into it; the guard likewise keeps a heap of ruleset objects.
Objects that are never written to after construction (asset descriptors,
meta-item and value descriptor entries) are modelled by value.

TypeScript non-null assertions (`x!`) on names are embedded by `bangStr`;
JavaScript truthiness tests on optional strings (`if (x.type)`, which is false
for the empty string) by `strTruthy`; truthiness on optional arrays/objects
(always truthy when present) by `Option.isSome`.
-/

/-- One attribute descriptor (from the external model package): name, value
type (a value-descriptor name, i.e. a string), format (an object, kept opaque),
units (a string array) and constraints (an array of constraint objects, kept
opaque as strings). `RulesConfigAttribute` in the source extends this
interface without adding fields, so config override entries reuse this type. -/
structure AttributeDescriptor where
  name : Option String
  type : Option String
  format : Option String
  units : Option (List String)
  constraints : Option (List String)
  deriving DecidableEq

instance : Inhabited AttributeDescriptor := ⟨⟨none, none, none, none, none⟩⟩

/-- Asset descriptor catalog entry; only the fields the embedded code reads or
writes (name, icon, colour) are modelled. -/
structure AssetDescriptor where
  name : Option String
  icon : Option String
  colour : Option String
  deriving DecidableEq

/-- A resolved asset type info. `attributeDescriptors` holds references
(store indices) to the shared attribute-descriptor objects, modelling
JavaScript object identity: a spread copy of the array copies the references,
not the objects. -/
structure AssetTypeInfo where
  assetDescriptor : Option AssetDescriptor
  attributeDescriptors : Option (List Nat)
  metaItemDescriptors : Option (List String)
  valueDescriptors : Option (List String)
  deriving DecidableEq

/-- Per-asset-type override entry of a config section
(`RulesConfigAsset` in the source). Dictionaries are association lists. -/
structure RulesConfigAsset where
  includeAttributes : Option (List String)
  excludeAttributes : Option (List String)
  name : Option String
  icon : Option String
  color : Option String
  attributeDescriptors : Option (List (String × AttributeDescriptor))
  deriving DecidableEq

/-- One section of the layered config (`RulesDescriptorSection`). -/
structure RulesDescriptorSection where
  includeAssets : Option (List String)
  excludeAssets : Option (List String)
  attributeDescriptors : Option (List (String × AttributeDescriptor))
  assets : Option (List (String × RulesConfigAsset))
  deriving DecidableEq

/-- The three sections of `RulesConfig.descriptors`. -/
structure RulesConfigDescriptors where
  all : Option RulesDescriptorSection
  whenSection : Option RulesDescriptorSection
  actionSection : Option RulesDescriptorSection
  deriving DecidableEq

/-- The rules config; of its fields only `descriptors` is read by the embedded
functions (controls, handlers, json templates and the input provider are passed
through verbatim to external collaborators and never interpreted here). -/
structure RulesConfig where
  descriptors : Option RulesConfigDescriptors
  deriving DecidableEq

/-- The external asset model and utilities the resolver depends on:
the raw descriptor catalog (`AssetModelUtil.getAssetDescriptors()`), the
awaited result of `getAssetTypes()`, the canonical type-info lookup
(`AssetModelUtil.getAssetTypeInfo`, pure since it returns canonical objects),
the external `Util.stringMatch` helper (kept abstract), and the store of
canonical attribute-descriptor objects referenced by the type infos. -/
structure AssetModel where
  assetDescriptors : List AssetDescriptor
  availibleAssetTypes : List String
  getTypeInfo : AssetDescriptor → AssetTypeInfo
  stringMatch : String → String → Bool
  attrStore : List AttributeDescriptor

/-- Embedding of the TypeScript non-null assertion `x!` on an optional name. -/
def bangStr (o : Option String) : String := o.getD ""

/-- JavaScript truthiness of an optional string: `undefined` and `""` are
falsy, every other string is truthy. -/
def strTruthy : Option String → Bool
  | none => false
  | some s => !(s == "")

/-- The side-specific section: `useActionConfig ? descriptors.action :
descriptors.when`. -/
def sectionOf (descs : RulesConfigDescriptors) (useActionConfig : Bool) :
    Option RulesDescriptorSection :=
  if useActionConfig then descs.actionSection else descs.whenSection

/-- The allowed asset-type list (lines 221, 229-239 of index.ts): defaults to
the available type names; if either the side section or the `all` section
defines `includeAssets` it is rebuilt by two sequential assignments, so a
defined `all` list overwrites a defined side-specific list. -/
def allowedAssetTypesOf (availibleAssetTypes : List String)
    (descs : RulesConfigDescriptors) (useActionConfig : Bool) : List String :=
  let sInc := (sectionOf descs useActionConfig).bind RulesDescriptorSection.includeAssets
  let aInc := descs.all.bind RulesDescriptorSection.includeAssets
  if sInc.isSome || aInc.isSome then
    let allowed : List String := []
    let allowed := match sInc with
      | some l => l
      | none => allowed
    match aInc with
    | some l => l
    | none => allowed
  else availibleAssetTypes

/-- The excluded asset-type list (lines 222, 241-246): side-specific
`excludeAssets` followed by the `all` section's `excludeAssets`. -/
def excludedAssetTypesOf (descs : RulesConfigDescriptors)
    (useActionConfig : Bool) : List String :=
  let excluded : List String := []
  let excluded := match (sectionOf descs useActionConfig).bind RulesDescriptorSection.excludeAssets with
    | some l => l
    | none => excluded
  match descs.all.bind RulesDescriptorSection.excludeAssets with
  | some l => excluded ++ l
  | none => excluded

/-- The filter predicate of lines 248-253: reject when a non-empty allow-list
misses the name, otherwise keep exactly when the name is not excluded. -/
def surviveFilter (allowed excluded : List String) (ad : AssetDescriptor) : Bool :=
  if allowed.length > 0 && !(allowed.contains (bangStr ad.name)) then false
  else !(excluded.contains (bangStr ad.name))

/-- The descriptors surviving the allow/exclude filter, in catalog order. -/
def filteredDescriptors (m : AssetModel) (descs : RulesConfigDescriptors)
    (useActionConfig : Bool) : List AssetDescriptor :=
  m.assetDescriptors.filter
    (surviveFilter (allowedAssetTypesOf m.availibleAssetTypes descs useActionConfig)
      (excludedAssetTypesOf descs useActionConfig))

/-- Per-type entry of a section's `assets` dictionary with `"*"` wildcard
fallback (the repeated conditional of lines 180 and 185). -/
def lookupAssetOrStar (assets : Option (List (String × RulesConfigAsset)))
    (assetType : String) : Option RulesConfigAsset :=
  match assets with
  | none => none
  | some l =>
    match l.lookup assetType with
    | some d => some d
    | none => l.lookup "*"

/-- Embedding of `getAssetDescriptorFromSection` (lines 172-186). -/
def getAssetDescriptorFromSection (assetType : String)
    (config : Option RulesConfig) (useActionConfig : Bool) : Option RulesConfigAsset :=
  match config with
  | none => none
  | some cfg =>
    match cfg.descriptors with
    | none => none
    | some descs =>
      let descriptor :=
        lookupAssetOrStar ((sectionOf descs useActionConfig).bind RulesDescriptorSection.assets) assetType
      match descriptor with
      | some d => some d
      | none => lookupAssetOrStar (descs.all.bind RulesDescriptorSection.assets) assetType

/-- The attribute-descriptor override lookup chain of lines 292-298: the
config descriptor's own dictionary, then the side section's shared dictionary,
then the `all` section's shared dictionary. -/
def lookupConfigAttributeDescriptor (descs : RulesConfigDescriptors)
    (useActionConfig : Bool) (configDescriptor : RulesConfigAsset)
    (attrName : String) : Option AttributeDescriptor :=
  match (configDescriptor.attributeDescriptors.getD []).lookup attrName with
  | some d => some d
  | none =>
    let fromSection :=
      match (sectionOf descs useActionConfig).bind RulesDescriptorSection.attributeDescriptors with
      | some l => l.lookup attrName
      | none => none
    match fromSection with
    | some d => some d
    | none =>
      match descs.all.bind RulesDescriptorSection.attributeDescriptors with
      | some l => l.lookup attrName
      | none => none

/-- The field-override writes of lines 299-312, applied to one attribute
descriptor object: type replaced when the override's type string is truthy,
format and units when present, and override constraints prepended to the
original ones (when the original has no constraints array the override's
array itself is assigned). -/
def applyConfigAttributeOverride (configAttributeDescriptor attributeDescriptor : AttributeDescriptor) :
    AttributeDescriptor :=
  let a := attributeDescriptor
  let a := if strTruthy configAttributeDescriptor.type then
      { a with type := configAttributeDescriptor.type } else a
  let a := if configAttributeDescriptor.format.isSome then
      { a with format := configAttributeDescriptor.format } else a
  let a := if configAttributeDescriptor.units.isSome then
      { a with units := configAttributeDescriptor.units } else a
  match configAttributeDescriptor.constraints with
  | none => a
  | some cs =>
    { a with constraints :=
        match a.constraints with
        | some orig => some (cs ++ orig)
        | none => some cs }

/-- The body of the surviving-descriptor map (lines 254-317) for one
descriptor, threading the attribute store: when no config descriptor matches,
the canonical type info is returned as-is; otherwise a modified type info is
built from copies of the descriptor and the reference lists, icon/colour are
overridden, attributes are include/exclude-filtered, and matching override
entries are written through the shared references into the store. -/
def processDescriptor (m : AssetModel) (config : RulesConfig)
    (descs : RulesConfigDescriptors) (useActionConfig : Bool)
    (store : List AttributeDescriptor) (ad : AssetDescriptor) :
    AssetTypeInfo × List AttributeDescriptor :=
  let typeInfo := m.getTypeInfo ad
  let configDescriptor := getAssetDescriptorFromSection (bangStr ad.name) (some config) useActionConfig
  match configDescriptor with
  | none => (typeInfo, store)
  | some cd =>
    let d : AssetDescriptor :=
      match typeInfo.assetDescriptor with
      | some d0 => d0
      | none => { name := none, icon := none, colour := none }
    let d := if strTruthy cd.icon then { d with icon := cd.icon } else d
    let d := if strTruthy cd.color then { d with colour := cd.color } else d
    let attrRefs := typeInfo.attributeDescriptors.getD []
    let includedAttributes := cd.includeAttributes
    let excludedAttributes := cd.excludeAttributes
    let attrRefs :=
      if includedAttributes.isSome || excludedAttributes.isSome then
        attrRefs.filter (fun r =>
          let mad := store.getD r default
          (match includedAttributes with
           | some l => l.any (fun inc => m.stringMatch inc (bangStr mad.name))
           | none => true)
          && (match excludedAttributes with
              | some l => !(l.any (fun exc => m.stringMatch exc (bangStr mad.name)))
              | none => true))
      else attrRefs
    let store :=
      if cd.attributeDescriptors.isSome then
        attrRefs.foldl (fun st r =>
          let attributeDescriptor := st.getD r default
          match lookupConfigAttributeDescriptor descs useActionConfig cd (bangStr attributeDescriptor.name) with
          | none => st
          | some cad => st.set r (applyConfigAttributeOverride cad attributeDescriptor)) store
      else store
    ({ assetDescriptor := some d,
       attributeDescriptors := some attrRefs,
       metaItemDescriptors := some (typeInfo.metaItemDescriptors.getD []),
       valueDescriptors := some (typeInfo.valueDescriptors.getD []) }, store)

/-- Embedding of `getAssetInfos` (lines 217-320), as a transformer of the
attribute store: it returns the resolved type infos together with the store
after the call (the store changes exactly when the source mutates the shared
attribute-descriptor objects). -/
def getAssetInfos (m : AssetModel) (config : Option RulesConfig)
    (useActionConfig : Bool) : List AssetTypeInfo × List AttributeDescriptor :=
  match config with
  | none => (m.assetDescriptors.map (fun ad => m.getTypeInfo ad), m.attrStore)
  | some cfg =>
    match cfg.descriptors with
    | none => (m.assetDescriptors.map (fun ad => m.getTypeInfo ad), m.attrStore)
    | some descs =>
      (filteredDescriptors m descs useActionConfig).foldl
        (fun acc ad =>
          let r := processDescriptor m cfg descs useActionConfig acc.2 ad
          (acc.1 ++ [r.1], r.2))
        ([], m.attrStore)

/-- The deep (dereferenced) value of a resolved type info: attribute
references resolved against a store, as a deep-equality comparison of the
returned JavaScript objects would see them. -/
structure AssetTypeInfoValue where
  assetDescriptor : Option AssetDescriptor
  attributeDescriptors : Option (List AttributeDescriptor)
  metaItemDescriptors : Option (List String)
  valueDescriptors : Option (List String)
  deriving DecidableEq

/-- Resolve a type info's attribute references against a store. -/
def derefInfo (store : List AttributeDescriptor) (i : AssetTypeInfo) : AssetTypeInfoValue :=
  { assetDescriptor := i.assetDescriptor,
    attributeDescriptors := i.attributeDescriptors.map (fun rs => rs.map (fun r => store.getD r default)),
    metaItemDescriptors := i.metaItemDescriptors,
    valueDescriptors := i.valueDescriptors }

/-- A persisted ruleset; the id plus an opaque payload standing for the
remaining `RulesetUnion` fields. -/
structure RulesetVal where
  id : Option Nat
  payload : String
  deriving DecidableEq

instance : Inhabited RulesetVal := ⟨⟨none, ""⟩⟩

/-- A rule-list node (`RulesetNode`): a reference to a ruleset object in the
guard's heap plus the selection flag. References model JavaScript object
identity, so that a spread copy (`\x7b...ruleset\x7d`) is a fresh reference with
equal content. -/
structure RulesetNode where
  rulesetRef : Nat
  selected : Bool
  deriving DecidableEq

/-- The guard-visible state of the `OrRules` component: the heap of ruleset
objects, `selectedIds`, the viewer's current ruleset reference and the
viewer's modified flag. -/
structure GuardState where
  heap : List RulesetVal
  selectedIds : Option (List Nat)
  viewerRuleset : Option Nat
  viewerModified : Bool
  deriving DecidableEq

/-- Dereference node lists for `Util.objectsEqual`, the deep-equality
comparison of lines 619: nodes compare by their selection flag and the
content of the ruleset object they reference. -/
def derefNodes (heap : List RulesetVal) (ns : List RulesetNode) :
    List (RulesetVal × Bool) :=
  ns.map (fun n => (heap.getD n.rulesetRef default, n.selected))

/-- Deep equality of two node lists against a heap. -/
def nodesDeepEqual (heap : List RulesetVal) (xs ys : List RulesetNode) : Bool :=
  decide (derefNodes heap xs = derefNodes heap ys)

/-- Outcome of one selection request: resulting state, the request event's
`allow` flag after dispatch, and whether the confirmation dialog was shown. -/
structure SelectionOutcome where
  state : GuardState
  allow : Bool
  prompted : Bool
  deriving DecidableEq

/-- Embedding of `_onRuleSelectionRequested` together with
`_confirmContinue` (lines 594-627). `ok` is the user's choice in the
confirmation dialog (`false` covers cancel and dismissal, both of which leave
the callback unrun). `none` models the crash of `nodes[0].ruleset` when the
confirmed-and-deep-equal branch is reached with an empty `newNodes`;
otherwise: on confirm of an identical selection the viewer ruleset becomes a
freshly allocated spread copy of the first node's ruleset, and on confirm of a
different selection `selectedIds` becomes the node ids and the viewer ruleset
the single node's ruleset object itself (no copy) when exactly one node is
selected, or none otherwise. -/
def onRuleSelectionRequested (st : GuardState) (oldNodes newNodes : List RulesetNode)
    (ok : Bool) : Option SelectionOutcome :=
  if !st.viewerModified then
    some { state := st, allow := true, prompted := false }
  else if ok then
    if nodesDeepEqual st.heap newNodes oldNodes then
      match newNodes with
      | [] => none
      | n :: _ =>
        let copied := st.heap.getD n.rulesetRef default
        let st' := { st with heap := st.heap ++ [copied]
                             viewerRuleset := some st.heap.length }
        some { state := st', allow := false, prompted := true }
    else
      let newIds := newNodes.map (fun n => (st.heap.getD n.rulesetRef default).id.getD 0)
      let newViewer : Option Nat :=
        match newNodes with
        | [n] => some n.rulesetRef
        | _ => none
      let st' := { st with selectedIds := some newIds
                           viewerRuleset := newViewer }
      some { state := st', allow := false, prompted := true }
  else
    some { state := st, allow := false, prompted := true }

/-- The mutable detail payload shared by all request events. -/
structure RequestEventDetail (T : Type) where
  allow : Bool
  detail : T
  deriving DecidableEq

/-- Selection request payload (`NodeSelectEventDetail`). -/
structure NodeSelectEventDetail where
  oldNodes : List RulesetNode
  newNodes : List RulesetNode
  deriving DecidableEq

/-- Add request payload (`AddEventDetail`). -/
structure AddEventDetail where
  ruleset : RulesetVal
  sourceRuleset : Option RulesetVal
  deriving DecidableEq

/-- Constructor of `OrRulesRequestSelectionEvent` (lines 352-366). -/
def orRulesRequestSelectionEvent (request : NodeSelectEventDetail) :
    RequestEventDetail NodeSelectEventDetail :=
  { detail := request, allow := true }

/-- Constructor of `OrRulesRequestAddEvent` (lines 386-400). -/
def orRulesRequestAddEvent (detail : AddEventDetail) :
    RequestEventDetail AddEventDetail :=
  { detail := detail, allow := true }

/-- Constructor of `OrRulesRequestDeleteEvent` (lines 415-429). -/
def orRulesRequestDeleteEvent (request : List RulesetNode) :
    RequestEventDetail (List RulesetNode) :=
  { detail := request, allow := true }

/-- Constructor of `OrRulesRequestSaveEvent` (lines 437-451). -/
def orRulesRequestSaveEvent (ruleset : RulesetVal) :
    RequestEventDetail RulesetVal :=
  { allow := true, detail := ruleset }

/-! Concrete inputs used by individual claim theorems and witnesses. -/

/-- Canonical attribute descriptor `temp` with native constraints, for the
mutation scenario. -/
def mutAttr : AttributeDescriptor :=
  { name := some "temp", type := none, format := none, units := none,
    constraints := some ["c1"] }

/-- Catalog descriptor for the mutation scenario. -/
def mutAd : AssetDescriptor := { name := some "Thing", icon := none, colour := none }

/-- A one-type asset model whose single attribute carries constraints
`["c1"]`. -/
def mutModel : AssetModel :=
  { assetDescriptors := [mutAd],
    availibleAssetTypes := ["Thing"],
    getTypeInfo := fun _ =>
      { assetDescriptor := some mutAd, attributeDescriptors := some [0],
        metaItemDescriptors := some [], valueDescriptors := some [] },
    stringMatch := fun p s => p == s,
    attrStore := [mutAttr] }

/-- A config whose `when` section overrides the `temp` attribute of `Thing`
with constraints `["c2"]`. -/
def mutCfg : RulesConfig :=
  { descriptors := some
      { all := none,
        whenSection := some
          { includeAssets := none, excludeAssets := none, attributeDescriptors := none,
            assets := some [("Thing",
              { includeAttributes := none, excludeAttributes := none, name := none,
                icon := none, color := none,
                attributeDescriptors := some [("temp",
                  { name := none, type := none, format := none, units := none,
                    constraints := some ["c2"] })] })] },
        actionSection := none } }

/-- The asset model as the first resolution call leaves it (its attribute
store replaced by the store the call returns). -/
def mutModelAfter : AssetModel :=
  { mutModel with attrStore := (getAssetInfos mutModel (some mutCfg) false).2 }

/-- Sections for the include-precedence witness: `all` defines
`includeAssets = ["A", "B"]` and `when` defines `includeAssets = ["C"]`. -/
def precDescs : RulesConfigDescriptors :=
  { all := some
      { includeAssets := some ["A", "B"], excludeAssets := none,
        attributeDescriptors := none, assets := none },
    whenSection := some
      { includeAssets := some ["C"], excludeAssets := none,
        attributeDescriptors := none, assets := none },
    actionSection := none }

/-- Config override entry whose `type` is the empty string (defined but
falsy) and whose constraints are `["c2"]`. -/
def c3Ov : AttributeDescriptor :=
  { name := none, type := some "", format := none, units := none,
    constraints := some ["c2"] }

/-- An attribute descriptor with native type `Number` and constraints
`["c1"]`. -/
def c3Orig : AttributeDescriptor :=
  { name := some "temp", type := some "Number", format := none, units := none,
    constraints := some ["c1"] }

/-- A trivial asset model with no attributes, for edge-case witnesses. -/
def plainModel : AssetModel :=
  { assetDescriptors := [{ name := some "Car", icon := none, colour := none }],
    availibleAssetTypes := ["Car"],
    getTypeInfo := fun ad =>
      { assetDescriptor := some ad, attributeDescriptors := some [],
        metaItemDescriptors := some [], valueDescriptors := some [] },
    stringMatch := fun p s => p == s,
    attrStore := [] }

/-- A per-type override entry with no content, used as a lookup target. -/
def carOverride : RulesConfigAsset :=
  { includeAttributes := none, excludeAttributes := none, name := none,
    icon := some "car-icon", color := none, attributeDescriptors := none }

/-- Descriptors whose `when` section maps only `Car`, with no `all`
section, for the override-lookup witness. -/
def c6Descs : RulesConfigDescriptors :=
  { all := none,
    whenSection := some
      { includeAssets := none, excludeAssets := none, attributeDescriptors := none,
        assets := some [("Car", carOverride)] },
    actionSection := none }

/-- Config wrapping `c6Descs`. -/
def c6Cfg : RulesConfig := { descriptors := some c6Descs }

/-- A descriptor whose name has no override entry in `c6Cfg`. -/
def boatAd : AssetDescriptor := { name := some "Boat", icon := none, colour := none }

/-- A ruleset object for guard scenarios. -/
def guardRuleset : RulesetVal := { id := some 7, payload := "rules" }

/-- A guard state with one ruleset on the heap, that ruleset open in the
viewer, and unsaved modifications. -/
def guardSt : GuardState :=
  { heap := [guardRuleset], selectedIds := some [7], viewerRuleset := some 0,
    viewerModified := true }

/-- The list node referencing the single ruleset of `guardSt`. -/
def guardNode : RulesetNode := { rulesetRef := 0, selected := true }

/-- C1: the resolver is NOT side-effect-free. On a catalog whose `Thing` type
has one attribute with constraints `["c1"]` and a config override supplying
constraints `["c2"]`, the call rewrites the canonical catalog attribute
descriptor in place (the attribute store changes), and a second call with
identical arguments returns a deep-different result (constraints grow to
`["c2", "c2", "c1"]`). This exhibits the slip of lines 291-313: the attribute
array is shallow-copied but its shared element objects are written to. -/
theorem getAssetInfos_mutates_catalog :
    (getAssetInfos mutModel (some mutCfg) false).2 ≠ mutModel.attrStore ∧
    (getAssetInfos mutModel (some mutCfg) false).1.map
        (derefInfo (getAssetInfos mutModel (some mutCfg) false).2) ≠
      (getAssetInfos mutModelAfter (some mutCfg) false).1.map
        (derefInfo (getAssetInfos mutModelAfter (some mutCfg) false).2) := by
  constructor <;> decide

/-- C5: a `config` of `undefined`, or one whose `descriptors` is `undefined`,
short-circuits: the result is exactly the catalog's native type-info list
(one entry per descriptor, in catalog order) and the attribute store is
untouched. -/
theorem getAssetInfos_default_transparency (m : AssetModel) (u : Bool)
    (cfg : RulesConfig) (h : cfg.descriptors = none) :
    getAssetInfos m none u = (m.assetDescriptors.map (fun ad => m.getTypeInfo ad), m.attrStore) ∧
    getAssetInfos m (some cfg) u = (m.assetDescriptors.map (fun ad => m.getTypeInfo ad), m.attrStore) := by
  refine ⟨rfl, ?_⟩
  simp only [getAssetInfos, h]

/-- Witness for C5 at a concrete one-type model and the empty config. -/
theorem getAssetInfos_default_transparency_witness :
    getAssetInfos plainModel none false =
      (plainModel.assetDescriptors.map (fun ad => plainModel.getTypeInfo ad), plainModel.attrStore) ∧
    getAssetInfos plainModel (some { descriptors := none }) false =
      (plainModel.assetDescriptors.map (fun ad => plainModel.getTypeInfo ad), plainModel.attrStore) :=
  getAssetInfos_default_transparency plainModel false { descriptors := none } rfl

/-- C9: all four request-event constructors initialise the mutable `allow`
flag to `true`; a freshly created request is permitted until a listener flips
it. -/
theorem requestEvents_initial_allow :
    (∀ d : NodeSelectEventDetail, (orRulesRequestSelectionEvent d).allow = true) ∧
    (∀ d : AddEventDetail, (orRulesRequestAddEvent d).allow = true) ∧
    (∀ d : List RulesetNode, (orRulesRequestDeleteEvent d).allow = true) ∧
    (∀ d : RulesetVal, (orRulesRequestSaveEvent d).allow = true) :=
  ⟨fun _ => rfl, fun _ => rfl, fun _ => rfl, fun _ => rfl⟩

/-- C2: precedence of `includeAssets`. When both the side section and the
`all` section define it, the `all` list alone is the allow-list; when exactly
one defines it, that list is the allow-list; when neither does, the allow-list
is the full default asset-type-name set. -/
theorem allowedAssetTypes_precedence (avail : List String)
    (descs : RulesConfigDescriptors) (u : Bool) :
    (∀ sl al, (sectionOf descs u).bind RulesDescriptorSection.includeAssets = some sl →
      descs.all.bind RulesDescriptorSection.includeAssets = some al →
      allowedAssetTypesOf avail descs u = al) ∧
    (∀ sl, (sectionOf descs u).bind RulesDescriptorSection.includeAssets = some sl →
      descs.all.bind RulesDescriptorSection.includeAssets = none →
      allowedAssetTypesOf avail descs u = sl) ∧
    (∀ al, (sectionOf descs u).bind RulesDescriptorSection.includeAssets = none →
      descs.all.bind RulesDescriptorSection.includeAssets = some al →
      allowedAssetTypesOf avail descs u = al) ∧
    ((sectionOf descs u).bind RulesDescriptorSection.includeAssets = none →
      descs.all.bind RulesDescriptorSection.includeAssets = none →
      allowedAssetTypesOf avail descs u = avail) := by
  refine ⟨?_, ?_, ?_, ?_⟩
  · intro sl al hs ha
    simp [allowedAssetTypesOf, hs, ha]
  · intro sl hs ha
    simp [allowedAssetTypesOf, hs, ha]
  · intro al hs ha
    simp [allowedAssetTypesOf, hs, ha]
  · intro hs ha
    simp [allowedAssetTypesOf, hs, ha]

/-- Witness for C2: with `all.includeAssets = ["A", "B"]` and
`when.includeAssets = ["C"]`, resolving for the `when` side yields
`["A", "B"]`. -/
theorem allowedAssetTypes_precedence_witness :
    allowedAssetTypesOf ["D"] precDescs false = ["A", "B"] :=
  (allowedAssetTypes_precedence ["D"] precDescs false).1 ["C"] ["A", "B"] rfl rfl

/-- Helper: membership characterisation of the survive filter. -/
theorem surviveFilter_eq_true (allowed excluded : List String) (ad : AssetDescriptor) :
    surviveFilter allowed excluded ad = true ↔
      ((allowed = [] ∨ bangStr ad.name ∈ allowed) ∧ bangStr ad.name ∉ excluded) := by
  cases allowed with
  | nil => simp [surviveFilter, List.elem_iff]
  | cons a rest =>
    by_cases hA : bangStr ad.name ∈ a :: rest <;>
    by_cases hE : bangStr ad.name ∈ excluded <;>
    simp_all [surviveFilter, List.elem_iff]

/-- C4: the excluded set is the union of the side section's and the `all`
section's `excludeAssets`; a catalog descriptor survives filtering exactly
when the allow-list is empty or contains its name and its name is not
excluded; and the surviving list is a sublist of the catalog (stable filter,
original order, no re-sort). -/
theorem excludedAssetTypes_union_filter (m : AssetModel)
    (descs : RulesConfigDescriptors) (u : Bool) :
    (∀ x : String, x ∈ excludedAssetTypesOf descs u ↔
      (x ∈ ((sectionOf descs u).bind RulesDescriptorSection.excludeAssets).getD [] ∨
       x ∈ (descs.all.bind RulesDescriptorSection.excludeAssets).getD [])) ∧
    (∀ ad : AssetDescriptor, ad ∈ filteredDescriptors m descs u ↔
      (ad ∈ m.assetDescriptors ∧
       (allowedAssetTypesOf m.availibleAssetTypes descs u = [] ∨
        bangStr ad.name ∈ allowedAssetTypesOf m.availibleAssetTypes descs u) ∧
       bangStr ad.name ∉ excludedAssetTypesOf descs u)) ∧
    (filteredDescriptors m descs u).Sublist m.assetDescriptors := by
  refine ⟨?_, ?_, ?_⟩
  · intro x
    unfold excludedAssetTypesOf
    cases hs : (sectionOf descs u).bind RulesDescriptorSection.excludeAssets <;>
      cases ha : descs.all.bind RulesDescriptorSection.excludeAssets <;>
      simp
  · intro ad
    unfold filteredDescriptors
    rw [List.mem_filter, surviveFilter_eq_true]
  · exact List.filter_sublist _

/-- Helper: the per-type-then-wildcard lookup is the orElse chain of the two
dictionary lookups. -/
theorem lookupAssetOrStar_eq (assets : Option (List (String × RulesConfigAsset)))
    (t : String) :
    lookupAssetOrStar assets t =
      (assets.bind (fun l => l.lookup t)).orElse (fun _ => assets.bind (fun l => l.lookup "*")) := by
  cases assets with
  | none => rfl
  | some l =>
    unfold lookupAssetOrStar
    cases h : List.lookup t l <;> simp [h, Option.orElse]

/-- C6: the override descriptor is the first defined among the side section's
per-type entry, the side section's wildcard entry, the `all` section's
per-type entry and the `all` section's wildcard entry; and when the lookup
yields nothing, the resolver returns the catalog's own type info (the very
same object, references included) and leaves the attribute store untouched. -/
theorem getAssetDescriptorFromSection_precedence (assetType : String)
    (cfg : RulesConfig) (u : Bool) (descs : RulesConfigDescriptors)
    (hd : cfg.descriptors = some descs) :
    (getAssetDescriptorFromSection assetType (some cfg) u =
      ((((sectionOf descs u).bind RulesDescriptorSection.assets).bind (fun l => l.lookup assetType)).orElse
        (fun _ => ((sectionOf descs u).bind RulesDescriptorSection.assets).bind (fun l => l.lookup "*"))).orElse
        (fun _ =>
          ((descs.all.bind RulesDescriptorSection.assets).bind (fun l => l.lookup assetType)).orElse
            (fun _ => (descs.all.bind RulesDescriptorSection.assets).bind (fun l => l.lookup "*")))) ∧
    (∀ (m : AssetModel) (store : List AttributeDescriptor) (ad : AssetDescriptor),
      getAssetDescriptorFromSection (bangStr ad.name) (some cfg) u = none →
      processDescriptor m cfg descs u store ad = (m.getTypeInfo ad, store)) := by
  constructor
  · simp only [getAssetDescriptorFromSection, hd]
    rw [lookupAssetOrStar_eq, lookupAssetOrStar_eq]
    cases h : (((sectionOf descs u).bind RulesDescriptorSection.assets).bind
        (fun l => l.lookup assetType)).orElse
        (fun _ => ((sectionOf descs u).bind RulesDescriptorSection.assets).bind
          (fun l => l.lookup "*")) <;>
      simp [h, Option.orElse]
  · intro m store ad h
    unfold processDescriptor
    have h' : getAssetDescriptorFromSection (bangStr ad.name) (some cfg) u = none := h
    rw [h']

/-- Witness for C6: in a config whose `when` section maps only `Car`, the
lookup for `Car` returns that entry, and for the unmapped `Boat` the resolver
passes the catalog type info through unchanged. -/
theorem getAssetDescriptorFromSection_precedence_witness :
    getAssetDescriptorFromSection "Car" (some c6Cfg) false = some carOverride ∧
    processDescriptor plainModel c6Cfg c6Descs false [] boatAd =
      (plainModel.getTypeInfo boatAd, []) :=
  ⟨((getAssetDescriptorFromSection_precedence "Car" c6Cfg false c6Descs rfl).1).trans (by decide),
   (getAssetDescriptorFromSection_precedence "Car" c6Cfg false c6Descs rfl).2
     plainModel [] boatAd (by decide)⟩

/-- C3 counterexample: an override entry that defines `type` as the empty
string (with constraints `["c2"]` over native `["c1"]`) does NOT replace the
attribute's type — the source guards the write with a truthiness test, and
the empty string is falsy — contradicting "type ... replaced by the override
values exactly when the override defines them". -/
theorem applyConfigAttributeOverride_emptyType_counterexample :
    c3Ov.type = some "" ∧ c3Orig.constraints = some ["c1"] ∧
    c3Ov.constraints = some ["c2"] ∧
    (applyConfigAttributeOverride c3Ov c3Orig).type = some "Number" ∧
    (some "Number" : Option String) ≠ some "" := by
  refine ⟨rfl, rfl, rfl, by decide, by decide⟩

/-- C3 (amended): with native constraints `c1` and override constraints `c2`,
the resolved constraints are exactly `c2 ++ c1` (override first, originals
appended, no de-duplication — never `c1 ++ c2` and never `c2` alone);
`format` and `units` are replaced exactly when the override defines them, and
`type` exactly when the override defines it as a truthy (non-empty) string. -/
theorem applyConfigAttributeOverride_fields (cad a : AttributeDescriptor)
    (c1 c2 : List String) (h1 : a.constraints = some c1)
    (h2 : cad.constraints = some c2) :
    (applyConfigAttributeOverride cad a).constraints = some (c2 ++ c1) ∧
    (applyConfigAttributeOverride cad a).type =
      (if strTruthy cad.type then cad.type else a.type) ∧
    (applyConfigAttributeOverride cad a).format =
      (if cad.format.isSome then cad.format else a.format) ∧
    (applyConfigAttributeOverride cad a).units =
      (if cad.units.isSome then cad.units else a.units) := by
  unfold applyConfigAttributeOverride
  rw [h2]
  split_ifs <;> simp_all

/-- Witness for C3's amended theorem at the concrete counterexample input. -/
theorem applyConfigAttributeOverride_fields_witness :
    (applyConfigAttributeOverride c3Ov c3Orig).constraints = some (["c2"] ++ ["c1"]) ∧
    (applyConfigAttributeOverride c3Ov c3Orig).type =
      (if strTruthy c3Ov.type then c3Ov.type else c3Orig.type) ∧
    (applyConfigAttributeOverride c3Ov c3Orig).format =
      (if c3Ov.format.isSome then c3Ov.format else c3Orig.format) ∧
    (applyConfigAttributeOverride c3Ov c3Orig).units =
      (if c3Ov.units.isSome then c3Ov.units else c3Orig.units) :=
  applyConfigAttributeOverride_fields c3Ov c3Orig ["c1"] ["c2"] rfl rfl

/-- C8: with unsaved modifications, cancelling (or dismissing) the
confirmation leaves the guard state untouched: the request is vetoed and
prompted, and `selectedIds` and the viewer ruleset are exactly as before. -/
theorem selectionRequested_cancel_noop (st : GuardState)
    (oldN newN : List RulesetNode) (hm : st.viewerModified = true) :
    onRuleSelectionRequested st oldN newN false =
      some { state := st, allow := false, prompted := true } ∧
    (∀ r : SelectionOutcome, onRuleSelectionRequested st oldN newN false = some r →
      r.state.selectedIds = st.selectedIds ∧ r.state.viewerRuleset = st.viewerRuleset) := by
  have h : onRuleSelectionRequested st oldN newN false =
      some { state := st, allow := false, prompted := true } := by
    simp [onRuleSelectionRequested, hm]
  refine ⟨h, ?_⟩
  intro r hr
  rw [h] at hr
  cases hr
  exact ⟨rfl, rfl⟩

/-- Witness for C8 at a concrete modified guard state. -/
theorem selectionRequested_cancel_noop_witness :
    onRuleSelectionRequested guardSt [guardNode] [guardNode] false =
      some { state := guardSt, allow := false, prompted := true } :=
  (selectionRequested_cancel_noop guardSt [guardNode] [guardNode] rfl).1

/-- C10: the confirm-and-reload branch reads the first element of `newNodes`:
with modifications pending, a confirmed request whose old and new node lists
are both empty (which are deep-equal) crashes on the missing first element,
while any request with a non-empty `newNodes` is well-defined. -/
theorem selectionRequested_empty_newNodes_crash (st : GuardState)
    (hm : st.viewerModified = true) :
    onRuleSelectionRequested st [] [] true = none ∧
    (∀ (oldN : List RulesetNode) (n : RulesetNode) (rest : List RulesetNode) (ok : Bool),
      (onRuleSelectionRequested st oldN (n :: rest) ok).isSome = true) := by
  constructor
  · simp [onRuleSelectionRequested, hm, nodesDeepEqual, derefNodes]
  · intro oldN n rest ok
    cases ok <;>
      cases hde : nodesDeepEqual st.heap (n :: rest) oldN <;>
      simp [onRuleSelectionRequested, hm, hde]

/-- Witness for C10 at a concrete modified guard state. -/
theorem selectionRequested_empty_newNodes_crash_witness :
    onRuleSelectionRequested guardSt [] [] true = none ∧
    (onRuleSelectionRequested guardSt [guardNode] [guardNode] true).isSome = true :=
  ⟨(selectionRequested_empty_newNodes_crash guardSt rfl).1,
   (selectionRequested_empty_newNodes_crash guardSt rfl).2 [guardNode] guardNode [] true⟩

/-- Helper: reading a list at the position of a freshly appended element. -/
theorem getD_concat_length (l : List RulesetVal) (a d : RulesetVal) :
    (l ++ [a]).getD l.length d = a := by
  induction l with
  | nil => rfl
  | cons x xs ih => exact ih

/-- C7: with unsaved modifications every selection request is vetoed and the
confirmation prompted; on confirm with `newNodes` deep-equal to `oldNodes`
the viewer ruleset becomes a freshly allocated copy of the first node's
ruleset (equal content at a reference distinct from every pre-existing one —
a reload, not a no-op); on confirm with differing lists `selectedIds` becomes
the identifiers of `newNodes` and the viewer ruleset the single node's
ruleset when exactly one node is selected, or none otherwise. -/
theorem selectionRequested_modified_confirm (st : GuardState)
    (oldN newN : List RulesetNode) (hm : st.viewerModified = true) :
    (∀ (ok : Bool) (r : SelectionOutcome),
      onRuleSelectionRequested st oldN newN ok = some r →
      r.allow = false ∧ r.prompted = true) ∧
    (∀ (n : RulesetNode) (rest : List RulesetNode), newN = n :: rest →
      nodesDeepEqual st.heap newN oldN = true →
      (onRuleSelectionRequested st oldN newN true =
        some { state := { st with heap := st.heap ++ [st.heap.getD n.rulesetRef default], viewerRuleset := some st.heap.length }, allow := false, prompted := true } ∧
       (st.heap ++ [st.heap.getD n.rulesetRef default]).getD st.heap.length default =
         st.heap.getD n.rulesetRef default ∧
       (∀ r0 : Nat, st.viewerRuleset = some r0 → r0 < st.heap.length →
         (some st.heap.length : Option Nat) ≠ st.viewerRuleset))) ∧
    (nodesDeepEqual st.heap newN oldN = false →
      onRuleSelectionRequested st oldN newN true =
        some { state := { st with selectedIds := some (newN.map (fun n => (st.heap.getD n.rulesetRef default).id.getD 0)), viewerRuleset := match newN with | [n] => some n.rulesetRef | _ => none }, allow := false, prompted := true }) := by
  refine ⟨?_, ?_, ?_⟩
  · intro ok r h
    cases newN with
    | nil =>
      cases ok <;> cases hde : nodesDeepEqual st.heap ([] : List RulesetNode) oldN <;>
        simp_all [onRuleSelectionRequested] <;> (subst h; exact ⟨rfl, rfl⟩)
    | cons n rest =>
      cases ok <;> cases hde : nodesDeepEqual st.heap (n :: rest) oldN <;>
        simp_all [onRuleSelectionRequested] <;> (subst h; exact ⟨rfl, rfl⟩)
  · intro n rest hnew hde
    subst hnew
    refine ⟨?_, getD_concat_length _ _ _, ?_⟩
    · simp [onRuleSelectionRequested, hm, hde]
    · intro r0 hr0 hlt heq
      rw [hr0] at heq
      injection heq with h
      omega
  · intro hde
    simp [onRuleSelectionRequested, hm, hde]

/-- Witness for C7: confirming a re-click of the already-selected node
replaces the viewer ruleset with a freshly allocated copy of that node's
ruleset. -/
theorem selectionRequested_modified_confirm_witness :
    onRuleSelectionRequested guardSt [guardNode] [guardNode] true =
      some { state := { guardSt with heap := guardSt.heap ++ [guardSt.heap.getD guardNode.rulesetRef default], viewerRuleset := some guardSt.heap.length }, allow := false, prompted := true } :=
  ((selectionRequested_modified_confirm guardSt [guardNode] [guardNode] rfl).2.1
    guardNode [] rfl (by decide)).1
